import Mathlib

/-
Verification of the Unix-domain-socket IPC server in
src/sockets/server/server.py (class UnixSocketServer) and its method
registry in src/sockets/server/methods.py.

The embedding is shallow: JSON values are an inductive type, Python
dicts are insertion-ordered association lists, exceptions are modelled
with Except, and the per-connection session loop / connection registry /
lifecycle functions are explicit state-passing translations of the
Python methods.  Machine-level concerns (actual sockets, threads, the
GIL) are abstracted into linearized event traces, which is faithful
because every registry mutation in the source happens under
self.client_lock.
-/

namespace WaybarServer

/-- A JSON value, as produced by json.loads.  Numbers are modelled as
integers (no claim depends on float behaviour). -/
inductive JVal where
  | jnull
  | jbool (b : Bool)
  | jint (n : Int)
  | jstr (s : String)
  | jarr (xs : List JVal)
  | jobj (kvs : List (String × JVal))
deriving Repr, Inhabited

/-- Python truthiness of a JSON value: None, False, 0, empty string,
empty list and empty dict are falsy. -/
def truthy : JVal → Bool
  | .jnull => false
  | .jbool b => b
  | .jint n => n != 0
  | .jstr s => s != ""
  | .jarr xs => !xs.isEmpty
  | .jobj kvs => !kvs.isEmpty

/-- Truthiness of dict.get(k): a missing key yields Python None, which
is falsy. -/
def truthyOpt : Option JVal → Bool
  | none => false
  | some v => truthy v

/-- dict.get(k) on an insertion-ordered association list (json.loads
keeps the last binding for a duplicated key; parsed objects here are
assumed duplicate-free, as json.loads guarantees). -/
def jget (kvs : List (String × JVal)) (k : String) : Option JVal :=
  (kvs.find? (fun p => p.1 == k)).map (fun p => p.2)

/-- dict item assignment d[k] = v: updates the existing binding in
place, else appends the new binding (CPython insertion order). -/
def jset (kvs : List (String × JVal)) (k : String) (v : JVal) : List (String × JVal) :=
  if kvs.any (fun p => p.1 == k) then
    kvs.map (fun p => if p.1 == k then (k, v) else p)
  else kvs ++ [(k, v)]

/-- dict.get lifted to a JSON value: field lookup on an object, none
otherwise (used to state which keys a response envelope carries). -/
def jgetV : JVal → String → Option JVal
  | .jobj kvs, k => jget kvs k
  | _, _ => none

/-- The name CPython gives the type of each JSON value, as it appears
in error messages. -/
def pyTypeName : JVal → String
  | .jnull => "NoneType"
  | .jbool _ => "bool"
  | .jint _ => "int"
  | .jstr _ => "str"
  | .jarr _ => "list"
  | .jobj _ => "dict"

/-- A single-quote character, kept out of string literals. -/
def sqc : Char := Char.ofNat 39

/-- A single-quote as a string. -/
def sq : String := String.singleton sqc

def hexDigit (n : Nat) : Char :=
  if n < 10 then Char.ofNat (48 + n) else Char.ofNat (87 + n)

/-- How CPython repr escapes one character inside a quoted string. -/
def escapeChar (quote : Char) (c : Char) : String :=
  if c = Char.ofNat 92 then String.singleton (Char.ofNat 92) ++ String.singleton (Char.ofNat 92)
  else if c = quote then String.singleton (Char.ofNat 92) ++ String.singleton quote
  else if c = Char.ofNat 10 then String.singleton (Char.ofNat 92) ++ "n"
  else if c = Char.ofNat 13 then String.singleton (Char.ofNat 92) ++ "r"
  else if c = Char.ofNat 9 then String.singleton (Char.ofNat 92) ++ "t"
  else if c.toNat < 32 ∨ c.toNat = 127 then
    String.singleton (Char.ofNat 92) ++ "x" ++
      String.singleton (hexDigit (c.toNat / 16)) ++ String.singleton (hexDigit (c.toNat % 16))
  else String.singleton c

/-- CPython repr of a str: single-quoted, switching to double quotes
when the string contains a single quote but no double quote. -/
def pyStrRepr (s : String) : String :=
  let q := if s.toList.contains sqc ∧ ¬ s.toList.contains (Char.ofNat 34) then Char.ofNat 34 else sqc
  String.singleton q ++ String.join (s.toList.map (escapeChar q)) ++ String.singleton q

mutual
/-- CPython repr of a JSON value (what appears when a list or dict is
interpolated into an f-string). -/
def pyRepr : JVal → String
  | .jnull => "None"
  | .jbool true => "True"
  | .jbool false => "False"
  | .jint n => toString n
  | .jstr s => pyStrRepr s
  | .jarr xs => "[" ++ String.intercalate ", " (pyReprList xs) ++ "]"
  | .jobj kvs => "\x7b" ++ String.intercalate ", " (pyReprObj kvs) ++ "\x7d"

def pyReprList : List JVal → List String
  | [] => []
  | v :: vs => pyRepr v :: pyReprList vs

def pyReprObj : List (String × JVal) → List String
  | [] => []
  | (k, v) :: kvs => (pyStrRepr k ++ ": " ++ pyRepr v) :: pyReprObj kvs
end

/-- CPython str of a JSON value (f-string interpolation): the string
itself for str, repr-like text for everything else. -/
def pyStr : JVal → String
  | .jstr s => s
  | v => pyRepr v

/-- The message of the AttributeError raised by v.get(...) when v is
not a dict (handle_client line 122 and handle_request line 172 reach
.get on the decoded value). -/
def noAttrGetMsg (v : JVal) : String :=
  sq ++ pyTypeName v ++ sq ++ " object has no attribute " ++ sq ++ "get" ++ sq

/-- The message of the TypeError raised by response[key] = v when the
response is not a dict (handle_client line 125). -/
def setItemErrMsg (v : JVal) : String :=
  match v with
  | .jarr _ => "list indices must be integers or slices, not str"
  | _ => sq ++ pyTypeName v ++ sq ++ " object does not support item assignment"

/-- Outcome of invoking a registered handler: a normal return of a
JSON-serializable value (the collaborator contract in the spec),
a raised TypeError, or any other raised exception.  The two raised
cases carry str(e). -/
inductive HandlerOutcome where
  | ok (v : JVal)
  | typeError (msg : String)
  | exn (msg : String)
deriving Repr

/-- A handler takes the splatted positional arguments. -/
def Handler : Type := List JVal → HandlerOutcome

/-- The method registry: METHODS.get by name.  Modelled as a function
so theorems quantify over all registries; METHODS itself is the
one-entry table below. -/
def MethodTable : Type := String → Option Handler

/-- METHODS.get(method) where method is an arbitrary decoded value:
string keys hit the table, other hashable values miss (the table keys
are all str), and unhashable values raise TypeError - which escapes
handle_request, since line 178 sits outside its try block. -/
def methodsGet (M : MethodTable) : JVal → Except String (Option Handler)
  | .jstr s => .ok (M s)
  | .jarr _ => .error ("unhashable type: " ++ sq ++ "list" ++ sq)
  | .jobj _ => .error ("unhashable type: " ++ sq ++ "dict" ++ sq)
  | _ => .ok none

/-- Argument splat method_handler(*args): a list splats to its
elements, a string to its characters, a dict to its keys, and
non-iterables raise TypeError (caught by the except TypeError arm,
line 187; CPython prefixes the callable name to this message, elided
here since the registry stores handlers without their Python names). -/
def splat : JVal → Except String (List JVal)
  | .jarr xs => .ok xs
  | .jstr s => .ok (s.toList.map (fun c => .jstr (String.singleton c)))
  | .jobj kvs => .ok (kvs.map (fun p => .jstr p.1))
  | v => .error ("argument after * must be an iterable, not " ++ pyTypeName v)

/-- Response dict literal for a failure envelope. -/
def errEnvelope (msg : String) : JVal :=
  .jobj [("success", .jbool false), ("error", .jstr msg)]

def noMethodResponse : JVal :=
  errEnvelope ("No " ++ sq ++ "method" ++ sq ++ " provided.")

def noSuchMethodResponse (m : JVal) : JVal :=
  errEnvelope ("No such method: " ++ sq ++ pyStr m ++ sq)

def invalidArgsResponse (args m : JVal) (detail : String) : JVal :=
  errEnvelope ("Invalid arguments " ++ sq ++ pyStr args ++ sq ++ " for method " ++
    sq ++ pyStr m ++ sq ++ ": " ++ detail)

def methodFailedResponse (m : JVal) (detail : String) : JVal :=
  errEnvelope ("Method " ++ sq ++ pyStr m ++ sq ++ " failed: " ++ detail)

def invalidJsonResponse : JVal := errEnvelope "Invalid JSON format"

def serverErrorResponse (detail : String) : JVal :=
  errEnvelope ("Server error: " ++ detail)

def shutdownResponse : JVal :=
  .jobj [("success", .jbool false), ("error", .jstr "Server shutting down"),
    ("shutdown", .jbool true)]

/-- UnixSocketServer.handle_request (server.py lines 170-196).
Except-error models an exception escaping handle_request into the
generic except arm of handle_client; Except-ok is the returned dict
(or, on success, whatever the handler returned). -/
def handle_request (M : MethodTable) : JVal → Except String JVal
  | .jobj kvs =>
    match jget kvs "method" with
    | none => .ok noMethodResponse
    | some m =>
      if ¬ truthy m then .ok noMethodResponse
      else
        match methodsGet M m with
        | .error e => .error e
        | .ok none => .ok (noSuchMethodResponse m)
        | .ok (some h) =>
          let args := (jget kvs "args").getD (.jarr [])
          match splat args with
          | .error e => .ok (invalidArgsResponse args m e)
          | .ok xs =>
            match h xs with
            | .ok v => .ok v
            | .typeError e => .ok (invalidArgsResponse args m e)
            | .exn e => .ok (methodFailedResponse m e)
  | v => .error (noAttrGetMsg v)

/-- Outcome of json.loads(data.decode(utf-8)) at server.py line 119 on
the received bytes.  The two failure modes are distinct exceptions:
bytes that are not valid UTF-8 raise UnicodeDecodeError inside
data.decode - a ValueError sibling of json.JSONDecodeError, NOT caught
by the except json.JSONDecodeError arm - while bytes that decode to
text json.loads rejects raise json.JSONDecodeError.  Each failure
constructor carries str(e). -/
inductive DecodeResult where
  | notUtf8 (msg : String)
  | notJson (msg : String)
  | jsonVal (v : JVal)

/-- str(UnicodeDecodeError) for the single received byte 0xff, the
concrete non-UTF-8 input used below. -/
def utf8ErrMsgFF : String :=
  sq ++ "utf-8" ++ sq ++ " codec can" ++ sq ++
    "t decode byte 0xff in position 0: invalid start byte"

/-- What one loop iteration of handle_client sends, and whether it
then breaks out of the receive loop (server.py lines 117-146). -/
structure StepOut where
  sent : List JVal
  close : Bool
deriving Repr

/-- One iteration body of the handle_client loop, after a non-empty
recv (server.py lines 118-146): decode, extract request_id, dispatch
through handle_request, echo a truthy request_id, send.  A
json.JSONDecodeError sends the invalid-JSON envelope and breaks; any
other exception sends a Server error envelope and breaks - this arm
catches the UnicodeDecodeError of non-UTF-8 bytes at line 119 as well
as the non-dict request and the non-dict response under a truthy
request_id. -/
def process_data (M : MethodTable) (parsed : DecodeResult) : StepOut :=
  match parsed with
  | .notUtf8 msg => { sent := [serverErrorResponse msg], close := true }
  | .notJson _ => { sent := [invalidJsonResponse], close := true }
  | .jsonVal json_data =>
    match json_data with
    | .jobj kvs =>
      let request_id := jget kvs "request_id"
      match handle_request M (.jobj kvs) with
      | .error e => { sent := [serverErrorResponse e], close := true }
      | .ok response =>
        match request_id with
        | some rid =>
          if truthy rid then
            match response with
            | .jobj rkvs =>
              { sent := [.jobj (jset rkvs "request_id" rid)], close := false }
            | _ => { sent := [serverErrorResponse (setItemErrMsg response)], close := true }
          else { sent := [response], close := false }
        | none => { sent := [response], close := false }
    | v => { sent := [serverErrorResponse (noAttrGetMsg v)], close := true }

/-- One result of the 1-second-bounded recv in the session loop. -/
inductive RecvEvent where
  | data (parsed : DecodeResult)
  | eof
  | timeout
  | sockError

/-- The while-running receive loop of handle_client (server.py lines
107-153), as the list of envelopes sent, driven by the sequence of
recv results. An exhausted event list models the running flag turning
false, which also exits the loop. -/
def session_loop (M : MethodTable) : List RecvEvent → List JVal
  | [] => []
  | e :: rest =>
    match e with
    | .eof => []
    | .timeout => session_loop M rest
    | .sockError => []
    | .data parsed =>
      let r := process_data M parsed
      if r.close then r.sent else r.sent ++ session_loop M rest

/-- Registration of a freshly accepted connection (server.py lines
103-104): append under the client lock. -/
def register_client (socks : List Nat) (c : Nat) : List Nat := socks ++ [c]

/-- Removal on session exit (server.py lines 159-161): remove the
first occurrence, a no-op when the socket is already absent. -/
def unregister_client (socks : List Nat) (c : Nat) : List Nat :=
  if c ∈ socks then socks.erase c else socks

/-- Everything observable about one full handle_client call: the
envelopes it sent, the connection registry it leaves behind, and the
fact that the finally block closed the client socket. -/
structure SessionResult where
  sent : List JVal
  registry : List Nat
  socketClosed : Bool

/-- UnixSocketServer.handle_client (server.py lines 98-168): register
the connection, run the receive loop, then in the finally block
unregister and close the socket on every exit path. -/
def handle_client (M : MethodTable) (socks : List Nat) (c : Nat)
    (events : List RecvEvent) : SessionResult :=
  let socks1 := register_client socks c
  let sent := session_loop M events
  { sent := sent, registry := unregister_client socks1 c, socketClosed := true }

/-- The mutable server fields the lifecycle claims are about. -/
structure SrvState where
  running : Bool
  client_sockets : List Nat
  sock_file_present : Bool
  server_socket_open : Bool
deriving Repr, DecidableEq

/-- Socket operations performed on client connections, in program
order. -/
inductive Action where
  | send (c : Nat) (v : JVal)
  | drainRecv (c : Nat)
  | closeConn (c : Nat)

/-- The per-connection body of the disconnect loop (server.py lines
205-229): send the shutdown notice, drain for up to 0.5s, close. -/
def client_disconnect_seq (c : Nat) : List Action :=
  [.send c shutdownResponse, .drainRecv c, .closeConn c]

/-- UnixSocketServer.disconnect_all_clients (server.py lines 198-235):
snapshot the registry under the lock, notify-drain-close each
snapshotted connection, then clear the registry under the lock. -/
def disconnect_all_clients (s : SrvState) : SrvState × List Action :=
  let clients_to_close := s.client_sockets
  ({ s with client_sockets := [] }, clients_to_close.flatMap client_disconnect_seq)

/-- UnixSocketServer.shutdown (server.py lines 288-294): clear the
running flag, then disconnect all clients. -/
def shutdown (s : SrvState) : SrvState × List Action :=
  disconnect_all_clients { s with running := false }

/-- UnixSocketServer.cleanup (server.py lines 296-330): clear running,
disconnect remaining clients, close the server socket, join client
threads with a 2s bound (no modelled state), unlink the socket file. -/
def cleanup (s : SrvState) : SrvState × List Action :=
  let s1 : SrvState := { s with running := false }
  let p := disconnect_all_clients s1
  let s2 : SrvState := { p.1 with server_socket_open := false }
  ({ s2 with sock_file_present := false }, p.2)

/-- UnixSocketServer.start (server.py lines 237-286): unlink any stale
socket file, create the listening socket, bind (bind_fails injects the
startup failure of claim C8), and on the success path run until the
accept loop exits; the finally block runs cleanup on both paths, and
the except arm returns exit code 1.  The accept loop itself only
spawns handle_client threads and is elided: it does not touch the
fields cleanup acts on. -/
def start (bind_fails : Bool) (s : SrvState) : SrvState × List Action × Int :=
  let s1 : SrvState := { s with sock_file_present := false }
  let s2 : SrvState := { s1 with server_socket_open := true }
  if bind_fails then
    let p := cleanup s2
    (p.1, p.2, 1)
  else
    let s3 : SrvState := { s2 with sock_file_present := true, running := true }
    let p := cleanup s3
    (p.1, p.2, 0)

/-- Linearized connection-registry events: every mutation of
client_sockets in the source happens under client_lock, so a run of
the server yields one total order of these. -/
inductive RegEvent where
  | connect (c : Nat)
  | disconnect (c : Nat)
  | shutdownAll
deriving Repr, DecidableEq

/-- Effect of one registry event on client_sockets: connect is the
append in handle_client, disconnect the guarded remove in its finally
block, shutdownAll the clear in disconnect_all_clients. -/
def regStep (socks : List Nat) : RegEvent → List Nat
  | .connect c => register_client socks c
  | .disconnect c => unregister_client socks c
  | .shutdownAll => []

/-- The registry contents after a linearized event history. -/
def regRun (es : List RegEvent) : List Nat := es.foldl regStep []

/-- Outcomes of the two pacman subprocess calls made by list_updates
(methods.py lines 3-26); check=True raises CalledProcessError on a
non-zero exit code. -/
structure PacmanEnv where
  syOk : Bool
  syCode : Int
  syStderr : String
  supOk : Bool
  supStdout : String
  supCode : Int
  supStderr : String

/-- methods.list_updates (methods.py lines 3-26), parameterized by the
subprocess outcomes.  Called with any positional argument it raises
TypeError before the body runs, since its Python signature is (). -/
def list_updates (env : PacmanEnv) : Handler := fun args =>
  match args with
  | [] =>
    if env.syOk then
      if env.supOk then
        .ok (.jobj [("success", .jbool true), ("updates", .jstr env.supStdout)])
      else
        .ok (.jobj [("success", .jbool false), ("exit_code", .jint env.supCode),
          ("error", .jstr env.supStderr)])
    else
      .ok (.jobj [("success", .jbool false), ("exit_code", .jint env.syCode),
        ("error", .jstr env.syStderr)])
  | _ =>
    .typeError ("list_updates() takes 0 positional arguments but " ++
      toString args.length ++ (if args.length = 1 then " was given" else " were given"))

/-- The METHODS table of methods.py lines 28-30. -/
def METHODS (env : PacmanEnv) : MethodTable := fun name =>
  if name = "list_updates" then some (list_updates env) else none

/-- Whether a JSON value is an object (a Python dict after json.loads). -/
def isObj : JVal → Bool
  | .jobj _ => true
  | _ => false

/-- Whether a registry event is about connection c. -/
def evTouches (c : Nat) : RegEvent → Bool
  | .connect d => d == c
  | .disconnect d => d == c
  | .shutdownAll => false

/-- C3 as stated is false on part of its domain: the single byte 0xff
does not parse as UTF-8 JSON, but it raises UnicodeDecodeError at the
data.decode call of line 119, which the except json.JSONDecodeError
arm does not catch; the generic except arm sends a Server-error
envelope instead of the claimed Invalid-JSON one (the two envelopes
differ in their error field). -/
theorem C3_counterexample :
    (process_data (fun _ => none) (.notUtf8 utf8ErrMsgFF)).sent =
      [serverErrorResponse utf8ErrMsgFF]
    ∧ (process_data (fun _ => none) (.notUtf8 utf8ErrMsgFF)).close = true
    ∧ ("Server error: " ++ utf8ErrMsgFF) ≠ "Invalid JSON format" :=
  ⟨rfl, rfl, by decide⟩

/-- C3 amended: a received byte sequence that decodes as UTF-8 but
fails json.loads makes the session send exactly the single
invalid-JSON error envelope; a byte sequence that is not valid UTF-8
instead gets exactly one Server-error envelope carrying the
UnicodeDecodeError text.  In both cases the receive loop exits
regardless of any further pending input and the finally block closes
the connection server-side. -/
theorem C3_decode_failure_closes (M : MethodTable) (socks : List Nat) (c : Nat)
    (msg umsg : String) (rest : List RecvEvent) :
    (session_loop M (.data (.notJson msg) :: rest) = [invalidJsonResponse]
    ∧ (handle_client M socks c (.data (.notJson msg) :: rest)).sent = [invalidJsonResponse]
    ∧ (handle_client M socks c (.data (.notJson msg) :: rest)).socketClosed = true)
    ∧ (session_loop M (.data (.notUtf8 umsg) :: rest) = [serverErrorResponse umsg]
    ∧ (handle_client M socks c (.data (.notUtf8 umsg) :: rest)).sent =
        [serverErrorResponse umsg]
    ∧ (handle_client M socks c (.data (.notUtf8 umsg) :: rest)).socketClosed = true) := by
  refine ⟨⟨?_, ?_, rfl⟩, ⟨?_, ?_, rfl⟩⟩ <;>
    simp [session_loop, process_data, handle_client]

/-- C4: a decoded request object whose method field is absent or the
empty string gets exactly the No-method-provided failure envelope from
handle_request, and the session loop does not close the connection for
it. -/
theorem C4_no_method_recoverable (M : MethodTable) (kvs : List (String × JVal))
    (h : jget kvs "method" = none ∨ jget kvs "method" = some (.jstr "")) :
    handle_request M (.jobj kvs) = .ok noMethodResponse
    ∧ (process_data M (.jsonVal (.jobj kvs))).close = false := by
  have hr : handle_request M (.jobj kvs) = .ok noMethodResponse := by
    rcases h with h | h <;> simp [handle_request, h, truthy]
  refine ⟨hr, ?_⟩
  simp only [process_data, hr]
  cases hrid : jget kvs "request_id" with
  | none => rfl
  | some rid =>
    by_cases ht : truthy rid = true
    · simp [ht, noMethodResponse, errEnvelope]
    · simp [ht]

theorem C4_no_method_recoverable_witness :
    handle_request (fun _ => none) (.jobj []) = .ok noMethodResponse
    ∧ (process_data (fun _ => none) (.jsonVal (.jobj []))).close = false :=
  C4_no_method_recoverable (fun _ => none) [] (Or.inl rfl)

/-- The per-connection action block of disconnect_all_clients appears
as one consecutive run inside the emitted action sequence for every
member of the snapshot. -/
theorem client_disconnect_block_mem (c : Nat) (l : List Nat) (hc : c ∈ l) :
    ∃ pre post, l.flatMap client_disconnect_seq =
      pre ++ Action.send c shutdownResponse :: Action.drainRecv c ::
        Action.closeConn c :: post := by
  induction l with
  | nil => cases hc
  | cons a t ih =>
    rcases List.mem_cons.mp hc with h | h
    · subst h
      exact ⟨[], t.flatMap client_disconnect_seq, by simp [client_disconnect_seq]⟩
    · obtain ⟨pre, post, hp⟩ := ih h
      exact ⟨client_disconnect_seq a ++ pre, post, by simp [hp, client_disconnect_seq]⟩

/-- C6: the shutdown broadcast sends the exact shutting-down notice to
every connection in the snapshotted registry before the forced close
of that same connection (the send-drain-close block is consecutive in program
order), sends notices to nobody else and nothing else, and leaves the
registry cleared. -/
theorem C6_shutdown_broadcast (s : SrvState) :
    (disconnect_all_clients s).1.client_sockets = []
    ∧ (∀ c ∈ s.client_sockets, ∃ pre post,
        (disconnect_all_clients s).2 =
          pre ++ Action.send c shutdownResponse :: Action.drainRecv c ::
            Action.closeConn c :: post)
    ∧ (∀ c v, Action.send c v ∈ (disconnect_all_clients s).2 →
        c ∈ s.client_sockets ∧ v = shutdownResponse) := by
  refine ⟨rfl, ?_, ?_⟩
  · intro c hc
    exact client_disconnect_block_mem c s.client_sockets hc
  · intro c v hv
    simp only [disconnect_all_clients, List.mem_flatMap] at hv
    obtain ⟨d, hd, hmem⟩ := hv
    simp only [client_disconnect_seq, List.mem_cons, List.not_mem_nil, or_false] at hmem
    rcases hmem with h | h | h
    · cases h
      exact ⟨hd, rfl⟩
    · cases h
    · cases h

theorem C6_shutdown_broadcast_witness :
    (∃ pre post,
      (disconnect_all_clients ⟨true, [3, 5], true, true⟩).2 =
        pre ++ Action.send 3 shutdownResponse :: Action.drainRecv 3 ::
          Action.closeConn 3 :: post)
    ∧ (disconnect_all_clients ⟨true, [3, 5], true, true⟩).1.client_sockets = [] :=
  ⟨(C6_shutdown_broadcast ⟨true, [3, 5], true, true⟩).2.1 3 (by decide),
   (C6_shutdown_broadcast ⟨true, [3, 5], true, true⟩).1⟩

/-- Updating an existing key in place leaves that key bound to the new
value. -/
theorem jget_update (kvs : List (String × JVal)) (k : String) (v : JVal)
    (h : kvs.any (fun p => p.1 == k) = true) :
    jget (kvs.map (fun p => if p.1 == k then (k, v) else p)) k = some v := by
  induction kvs with
  | nil => simp at h
  | cons p t ih =>
    by_cases hp : p.1 = k
    · simp [jget, hp]
    · have ht : t.any (fun p => p.1 == k) = true := by
        simp only [List.any_cons, Bool.or_eq_true, beq_iff_eq] at h
        rcases h with h | h
        · exact absurd h hp
        · exact h
      have step : jget ((p :: t).map (fun p => if p.1 == k then (k, v) else p)) k =
          jget (t.map (fun p => if p.1 == k then (k, v) else p)) k := by
        simp [jget, hp]
      rw [step]
      exact ih ht

/-- Appending a fresh binding makes the key bound to the new value. -/
theorem jget_append_new (kvs : List (String × JVal)) (k : String) (v : JVal)
    (h : kvs.any (fun p => p.1 == k) = false) :
    jget (kvs ++ [(k, v)]) k = some v := by
  induction kvs with
  | nil => simp [jget]
  | cons p t ih =>
    simp only [List.any_cons, Bool.or_eq_false_iff] at h
    have hp : ¬ p.1 = k := by
      intro hk
      simp [hk] at h
    have step : jget ((p :: t) ++ [(k, v)]) k = jget (t ++ [(k, v)]) k := by
      simp [jget, hp]
    rw [step]
    exact ih (by simpa using h.2)

/-- After response[request_id] = rid the response carries exactly that
request_id. -/
theorem jget_jset_self (kvs : List (String × JVal)) (k : String) (v : JVal) :
    jget (jset kvs k v) k = some v := by
  by_cases h : kvs.any (fun p => p.1 == k) = true
  · rw [jset, if_pos h]
    exact jget_update kvs k v h
  · rw [jset, if_neg h]
    exact jget_append_new kvs k v (Bool.not_eq_true _ ▸ h)

/-- Whenever handle_request hands the session loop a dict response,
the loop sends it and keeps the connection open. -/
theorem process_close_of_obj (M : MethodTable) (kvs r : List (String × JVal))
    (hr : handle_request M (.jobj kvs) = .ok (.jobj r)) :
    (process_data M (.jsonVal (.jobj kvs))).close = false := by
  simp only [process_data, hr]
  cases jget kvs "request_id" with
  | none => rfl
  | some rid =>
    by_cases ht : truthy rid = true
    · simp [ht]
    · simp [ht]

/-- C2 as stated is false: the source echoes request_id only when it
is truthy (if request_id: on line 124).  Here the request supplies the
JSON value 0 as request_id, the dispatch takes a failure branch, and
the response envelope carries no request_id at all. -/
theorem C2_counterexample :
    (process_data (fun _ => none)
        (.jsonVal (.jobj [("method", .jstr "x"), ("request_id", .jint 0)]))).sent =
      [noSuchMethodResponse (.jstr "x")]
    ∧ jgetV (noSuchMethodResponse (.jstr "x")) "request_id" = none := by
  constructor <;> rfl

/-- C2 amended: a truthy request_id round-trips verbatim into every
envelope the normal dispatch path sends - all handle_request failure
branches (whose envelopes are always dicts) and the success branch
whenever the handler result is a dict, as the collaborator contract
requires.  A falsy request_id is not echoed, and the invalid-JSON and
server-error envelopes carry none. -/
theorem C2_request_id_echo (M : MethodTable) (kvs r : List (String × JVal))
    (rid : JVal)
    (hrid : jget kvs "request_id" = some rid)
    (ht : truthy rid = true)
    (hr : handle_request M (.jobj kvs) = .ok (.jobj r)) :
    process_data M (.jsonVal (.jobj kvs)) =
      { sent := [.jobj (jset r "request_id" rid)], close := false }
    ∧ jget (jset r "request_id" rid) "request_id" = some rid := by
  refine ⟨?_, jget_jset_self r "request_id" rid⟩
  simp only [process_data, hrid, hr, ht, if_true]

theorem C2_request_id_echo_witness :
    process_data (fun _ => none)
        (.jsonVal (.jobj [("method", .jstr "x"), ("request_id", .jstr "abc")])) =
      { sent := [.jobj (jset [("success", JVal.jbool false),
          ("error", JVal.jstr ("No such method: " ++ sq ++ "x" ++ sq))]
          "request_id" (.jstr "abc"))], close := false }
    ∧ jget (jset [("success", JVal.jbool false),
        ("error", JVal.jstr ("No such method: " ++ sq ++ "x" ++ sq))]
        "request_id" (.jstr "abc")) "request_id" = some (.jstr "abc") :=
  C2_request_id_echo (fun _ => none)
    [("method", .jstr "x"), ("request_id", .jstr "abc")]
    [("success", JVal.jbool false),
      ("error", JVal.jstr ("No such method: " ++ sq ++ "x" ++ sq))]
    (.jstr "abc") rfl rfl rfl

/-- C1 as stated is false for the same reason as C2: the request below
supplies request_id 0 and its handler returns normally, yet the
response is the bare handler result with no request_id echoed. -/
theorem C1_counterexample :
    (process_data
        (fun s => if s = "m" then
          some (fun _ => HandlerOutcome.ok (.jobj [("success", .jbool true)]))
        else none)
        (.jsonVal (.jobj [("method", .jstr "m"), ("request_id", .jint 0)]))).sent =
      [.jobj [("success", .jbool true)]]
    ∧ jgetV (.jobj [("success", JVal.jbool true)]) "request_id" = none := by
  constructor <;> rfl

/-- C1 amended: when the method resolves and the handler returns
normally, handle_request passes the handler result through unchanged,
and the session sends exactly that value - with request_id added only
when the request supplied a truthy one (in which case the handler
result must be a dict; a falsy request_id is never echoed). -/
theorem C1_success_passthrough (M : MethodTable) (kvs : List (String × JVal))
    (name : String) (h : Handler) (argsv : JVal) (xs : List JVal) (v : JVal)
    (hm : jget kvs "method" = some (.jstr name))
    (hname : name ≠ "")
    (hh : M name = some h)
    (hargs : (jget kvs "args").getD (.jarr []) = argsv)
    (hsplat : splat argsv = .ok xs)
    (hok : h xs = .ok v) :
    handle_request M (.jobj kvs) = .ok v
    ∧ (truthyOpt (jget kvs "request_id") = false →
        process_data M (.jsonVal (.jobj kvs)) = { sent := [v], close := false })
    ∧ (∀ rid vk, jget kvs "request_id" = some rid → truthy rid = true →
        v = .jobj vk →
        process_data M (.jsonVal (.jobj kvs)) =
          { sent := [.jobj (jset vk "request_id" rid)], close := false }) := by
  have hr : handle_request M (.jobj kvs) = .ok v := by
    simp [handle_request, hm, truthy, hname, methodsGet, hh, hargs, hsplat, hok]
  refine ⟨hr, ?_, ?_⟩
  · intro hf
    simp only [process_data, hr]
    cases hq : jget kvs "request_id" with
    | none => rfl
    | some rid =>
      rw [hq] at hf
      simp only [truthyOpt] at hf
      simp [hf]
  · intro rid vk hq ht hvk
    subst hvk
    simp only [process_data, hr, hq, ht, if_true]

theorem C1_success_passthrough_witness :
    process_data
        (fun s => if s = "lu" then
          some (fun _ => HandlerOutcome.ok (.jobj [("success", JVal.jbool true)]))
        else none)
        (.jsonVal (.jobj [("method", .jstr "lu"), ("request_id", .jstr "abc")])) =
      { sent := [.jobj (jset [("success", JVal.jbool true)] "request_id" (.jstr "abc"))],
        close := false } :=
  (C1_success_passthrough
      (fun s => if s = "lu" then
        some (fun _ => HandlerOutcome.ok (.jobj [("success", JVal.jbool true)]))
      else none)
      [("method", .jstr "lu"), ("request_id", .jstr "abc")]
      "lu" (fun _ => HandlerOutcome.ok (.jobj [("success", JVal.jbool true)]))
      (.jarr []) [] (.jobj [("success", JVal.jbool true)])
      rfl (by decide) rfl rfl rfl rfl).2.2
    (.jstr "abc") [("success", JVal.jbool true)] rfl rfl rfl

/-- C5: handler invocation failures split into exactly the two shapes
the except arms of handle_request distinguish: a raised TypeError
(which is what an arity or argument-type mismatch raises) yields the
Invalid-arguments envelope, any other raised exception yields the
Method-failed envelope, and both leave the connection open. -/
theorem C5_handler_failure_classification (M : MethodTable)
    (kvs : List (String × JVal)) (name : String) (h : Handler)
    (argsv : JVal) (xs : List JVal)
    (hm : jget kvs "method" = some (.jstr name))
    (hname : name ≠ "")
    (hh : M name = some h)
    (hargs : (jget kvs "args").getD (.jarr []) = argsv)
    (hsplat : splat argsv = .ok xs) :
    (∀ msg, h xs = .typeError msg →
      handle_request M (.jobj kvs) = .ok (invalidArgsResponse argsv (.jstr name) msg)
      ∧ (process_data M (.jsonVal (.jobj kvs))).close = false)
    ∧ (∀ msg, h xs = .exn msg →
      handle_request M (.jobj kvs) = .ok (methodFailedResponse (.jstr name) msg)
      ∧ (process_data M (.jsonVal (.jobj kvs))).close = false) := by
  constructor
  · intro msg hmsg
    have hr : handle_request M (.jobj kvs) =
        .ok (invalidArgsResponse argsv (.jstr name) msg) := by
      simp [handle_request, hm, truthy, hname, methodsGet, hh, hargs, hsplat, hmsg]
    exact ⟨hr, process_close_of_obj M kvs _ hr⟩
  · intro msg hmsg
    have hr : handle_request M (.jobj kvs) =
        .ok (methodFailedResponse (.jstr name) msg) := by
      simp [handle_request, hm, truthy, hname, methodsGet, hh, hargs, hsplat, hmsg]
    exact ⟨hr, process_close_of_obj M kvs _ hr⟩

theorem C5_handler_failure_classification_witness :
    handle_request (fun s => if s = "f" then
        some (fun _ => HandlerOutcome.exn "boom") else none)
      (.jobj [("method", .jstr "f")]) =
      .ok (methodFailedResponse (.jstr "f") "boom")
    ∧ (process_data (fun s => if s = "f" then
        some (fun _ => HandlerOutcome.exn "boom") else none)
      (.jsonVal (.jobj [("method", .jstr "f")]))).close = false :=
  (C5_handler_failure_classification
      (fun s => if s = "f" then some (fun _ => HandlerOutcome.exn "boom") else none)
      [("method", .jstr "f")] "f" (fun _ => HandlerOutcome.exn "boom")
      (.jarr []) []
      rfl (by decide) rfl rfl rfl).2 "boom" rfl

/-- C10: a decoded request whose top-level value is not a dict, and a
normally-returned handler result that is not a dict while a truthy
request_id must be attached to it, both take the generic except arm of
handle_client: the session sends one Server-error envelope carrying
str of the exception and breaks out of the loop, closing the
connection - a session-terminating shape distinct from every envelope
handle_request produces.  A handler value that json.dumps rejects is
unrepresentable here: the collaborator contract restricts handler
results to JSON-serializable values, which the JVal codomain makes
exhaustive. -/
theorem C10_server_error_terminates (M : MethodTable) :
    (∀ v, isObj v = false →
      process_data M (.jsonVal v) =
        { sent := [serverErrorResponse (noAttrGetMsg v)], close := true })
    ∧ (∀ kvs rid v, jget kvs "request_id" = some rid → truthy rid = true →
        handle_request M (.jobj kvs) = .ok v → isObj v = false →
        process_data M (.jsonVal (.jobj kvs)) =
          { sent := [serverErrorResponse (setItemErrMsg v)], close := true }) := by
  constructor
  · intro v hv
    cases v <;> simp_all [process_data, isObj]
  · intro kvs rid v hq ht hr hv
    simp only [process_data, hq, hr, ht, if_true]
    cases v <;> simp_all [isObj]

theorem C10_server_error_terminates_witness :
    process_data (fun _ => some (fun _ => HandlerOutcome.ok (.jarr [.jint 1])))
        (.jsonVal (.jarr [.jint 1])) =
      { sent := [serverErrorResponse (noAttrGetMsg (.jarr [.jint 1]))], close := true }
    ∧ process_data (fun _ => some (fun _ => HandlerOutcome.ok (.jarr [.jint 1])))
        (.jsonVal (.jobj [("method", .jstr "z"), ("request_id", .jstr "r")])) =
      { sent := [serverErrorResponse (setItemErrMsg (.jarr [.jint 1]))], close := true } :=
  ⟨(C10_server_error_terminates
      (fun _ => some (fun _ => HandlerOutcome.ok (.jarr [.jint 1])))).1
      (.jarr [.jint 1]) rfl,
   (C10_server_error_terminates
      (fun _ => some (fun _ => HandlerOutcome.ok (.jarr [.jint 1])))).2
      [("method", .jstr "z"), ("request_id", .jstr "r")]
      (.jstr "r") (.jarr [.jint 1]) rfl rfl rfl rfl⟩

/-- C7: a second shutdown invocation right after a first one is a
harmless no-op: shutdown is a total function (so it cannot raise), the
second call emits no socket actions at all - in particular no second
notice to the connections the first call notified and closed - and
leaves the state exactly where the first call left it. -/
theorem C7_shutdown_idempotent (s : SrvState) :
    (shutdown (shutdown s).1).2 = [] ∧ (shutdown (shutdown s).1).1 = (shutdown s).1 := by
  cases s
  simp [shutdown, disconnect_all_clients]

/-- C8: when bind fails during startup, start returns exit code 1 to
its caller and the finally block has run the same cleanup as a normal
shutdown: no socket file is left, the server is not running, the
listening socket is closed and the registry is empty. -/
theorem C8_startup_failure_teardown (s : SrvState) :
    (start true s).2.2 = 1
    ∧ (start true s).1.sock_file_present = false
    ∧ (start true s).1.running = false
    ∧ (start true s).1.server_socket_open = false
    ∧ (start true s).1.client_sockets = [] := by
  cases s
  simp [start, cleanup, disconnect_all_clients]

theorem count_register_self (socks : List Nat) (c : Nat) :
    (register_client socks c).count c = socks.count c + 1 := by
  simp [register_client]

theorem count_register_other (socks : List Nat) (c d : Nat) (h : d ≠ c) :
    (register_client socks d).count c = socks.count c := by
  simp [register_client, List.count_singleton', h]

theorem count_unregister_self (socks : List Nat) (c : Nat) :
    (unregister_client socks c).count c = socks.count c - 1 := by
  unfold unregister_client
  by_cases h : c ∈ socks
  · simp [h, List.count_erase_self]
  · have h0 : socks.count c = 0 := List.count_eq_zero.mpr h
    simp [h, h0]

theorem count_unregister_other (socks : List Nat) (c d : Nat) (h : d ≠ c) :
    (unregister_client socks d).count c = socks.count c := by
  unfold unregister_client
  by_cases hm : d ∈ socks
  · simp [hm, List.count_erase_of_ne (Ne.symm h)]
  · simp [hm]

/-- A left factor of a list that is empty, a singleton or the given
pair is itself one of the three. -/
theorem prefixShape3 {α : Type} (a b : α) (x y : List α)
    (h : x ++ y = [] ∨ x ++ y = [a] ∨ x ++ y = [a, b]) :
    x = [] ∨ x = [a] ∨ x = [a, b] := by
  rcases x with _ | ⟨u, _ | ⟨v, _ | ⟨w, r⟩⟩⟩ <;> rcases h with h | h | h <;> simp_all

/-- How the count of one connection in client_sockets evolves along a
history of registry events, classified by the subsequence of events
about that connection. -/
theorem regFold_count (c : Nat) (p : List RegEvent) :
    ∀ socks : List Nat, RegEvent.shutdownAll ∉ p →
    ((p.filter (evTouches c) = [] →
        (p.foldl regStep socks).count c = socks.count c)
    ∧ (p.filter (evTouches c) = [RegEvent.connect c] →
        (p.foldl regStep socks).count c = socks.count c + 1)
    ∧ (p.filter (evTouches c) = [RegEvent.connect c, RegEvent.disconnect c] →
        (p.foldl regStep socks).count c = socks.count c)
    ∧ (p.filter (evTouches c) = [RegEvent.disconnect c] →
        (p.foldl regStep socks).count c = socks.count c - 1)) := by
  induction p with
  | nil =>
    intro socks _
    refine ⟨fun _ => rfl, fun h => ?_, fun h => ?_, fun h => ?_⟩ <;> simp at h
  | cons e t ih =>
    intro socks hs
    have hs' : RegEvent.shutdownAll ∉ t := fun h => hs (List.mem_cons_of_mem _ h)
    cases e with
    | shutdownAll => exact absurd (List.mem_cons_self _ _) hs
    | connect d =>
      by_cases hd : d = c
      · subst hd
        have hfil : (RegEvent.connect d :: t).filter (evTouches d) =
            RegEvent.connect d :: t.filter (evTouches d) := by
          simp [List.filter_cons, evTouches]
        have hfold : (RegEvent.connect d :: t).foldl regStep socks =
            t.foldl regStep (register_client socks d) := rfl
        have ihh := ih (register_client socks d) hs'
        refine ⟨?_, ?_, ?_, ?_⟩
        · intro h; rw [hfil] at h; exact absurd h (by simp)
        · intro h; rw [hfil] at h
          simp only [List.cons.injEq, true_and] at h
          rw [hfold, ihh.1 h, count_register_self]
        · intro h; rw [hfil] at h
          simp only [List.cons.injEq, true_and] at h
          rw [hfold, ihh.2.2.2 h, count_register_self]
          simp
        · intro h; rw [hfil] at h
          simp only [List.cons.injEq] at h
          exact absurd h.1 (by simp)
      · have hfil : (RegEvent.connect d :: t).filter (evTouches c) =
            t.filter (evTouches c) := by
          simp [List.filter_cons, evTouches, hd]
        have hfold : (RegEvent.connect d :: t).foldl regStep socks =
            t.foldl regStep (register_client socks d) := rfl
        have ihh := ih (register_client socks d) hs'
        have hcnt := count_register_other socks c d hd
        refine ⟨?_, ?_, ?_, ?_⟩ <;> intro h <;> rw [hfil] at h <;>
          rw [hfold] <;> rw [hcnt] at ihh
        · exact ihh.1 h
        · exact ihh.2.1 h
        · exact ihh.2.2.1 h
        · exact ihh.2.2.2 h
    | disconnect d =>
      by_cases hd : d = c
      · subst hd
        have hfil : (RegEvent.disconnect d :: t).filter (evTouches d) =
            RegEvent.disconnect d :: t.filter (evTouches d) := by
          simp [List.filter_cons, evTouches]
        have hfold : (RegEvent.disconnect d :: t).foldl regStep socks =
            t.foldl regStep (unregister_client socks d) := rfl
        have ihh := ih (unregister_client socks d) hs'
        refine ⟨?_, ?_, ?_, ?_⟩
        · intro h; rw [hfil] at h; exact absurd h (by simp)
        · intro h; rw [hfil] at h
          simp only [List.cons.injEq] at h
          exact absurd h.1 (by simp)
        · intro h; rw [hfil] at h
          simp only [List.cons.injEq] at h
          exact absurd h.1 (by simp)
        · intro h; rw [hfil] at h
          simp only [List.cons.injEq, true_and] at h
          rw [hfold, ihh.1 h, count_unregister_self]
      · have hfil : (RegEvent.disconnect d :: t).filter (evTouches c) =
            t.filter (evTouches c) := by
          simp [List.filter_cons, evTouches, hd]
        have hfold : (RegEvent.disconnect d :: t).foldl regStep socks =
            t.foldl regStep (unregister_client socks d) := rfl
        have ihh := ih (unregister_client socks d) hs'
        have hcnt := count_unregister_other socks c d hd
        refine ⟨?_, ?_, ?_, ?_⟩ <;> intro h <;> rw [hfil] at h <;>
          rw [hfold] <;> rw [hcnt] at ihh
        · exact ihh.1 h
        · exact ihh.2.1 h
        · exact ihh.2.2.1 h
        · exact ihh.2.2.2 h

/-- C9: along any linearized registry history without a shutdown
broadcast, in which the events about connection c form one well-formed
session (c is accepted at most once and disconnected only after),
the connection appears in client_sockets exactly once during every
prefix between its registration and its removal and zero times outside
that interval - in particular at most once everywhere; and removal is
a no-op whenever the connection is already absent, so a session
cleanup racing the forced close cannot double-remove. -/
theorem C9_registry_at_most_once (c : Nat) (es : List RegEvent)
    (hs : RegEvent.shutdownAll ∉ es)
    (hwf : es.filter (evTouches c) = []
      ∨ es.filter (evTouches c) = [RegEvent.connect c]
      ∨ es.filter (evTouches c) = [RegEvent.connect c, RegEvent.disconnect c]) :
    (∀ p t, es = p ++ t →
      (regRun p).count c =
        if RegEvent.connect c ∈ p ∧ RegEvent.disconnect c ∉ p then 1 else 0)
    ∧ (∀ socks, c ∉ socks → unregister_client socks c = socks) := by
  constructor
  · intro p t hpt
    subst hpt
    have hsp : RegEvent.shutdownAll ∉ p := fun h => hs (List.mem_append_left _ h)
    have hshape : p.filter (evTouches c) = []
        ∨ p.filter (evTouches c) = [RegEvent.connect c]
        ∨ p.filter (evTouches c) = [RegEvent.connect c, RegEvent.disconnect c] := by
      refine prefixShape3 _ _ _ (t.filter (evTouches c)) ?_
      rw [← List.filter_append]
      exact hwf
    have hcon : RegEvent.connect c ∈ p.filter (evTouches c) ↔ RegEvent.connect c ∈ p := by
      simp [List.mem_filter, evTouches]
    have hdis : RegEvent.disconnect c ∈ p.filter (evTouches c) ↔
        RegEvent.disconnect c ∈ p := by
      simp [List.mem_filter, evTouches]
    have hfold := regFold_count c p [] hsp
    rcases hshape with hsh | hsh | hsh
    · have hnc : RegEvent.connect c ∉ p := by
        intro h
        have := hcon.mpr h
        rw [hsh] at this
        simp at this
      rw [if_neg (fun hand => hnc hand.1)]
      simpa [regRun] using hfold.1 hsh
    · have hc : RegEvent.connect c ∈ p := hcon.mp (by rw [hsh]; simp)
      have hnd : RegEvent.disconnect c ∉ p := by
        intro h
        have := hdis.mpr h
        rw [hsh] at this
        simp at this
      rw [if_pos ⟨hc, hnd⟩]
      simpa [regRun] using hfold.2.1 hsh
    · have hd : RegEvent.disconnect c ∈ p := hdis.mp (by rw [hsh]; simp)
      rw [if_neg (fun hand => hand.2 hd)]
      simpa [regRun] using hfold.2.2.1 hsh
  · intro socks h
    simp [unregister_client, h]

theorem C9_registry_at_most_once_witness :
    (regRun [RegEvent.connect 3, RegEvent.connect 4]).count 3 =
      if RegEvent.connect 3 ∈ [RegEvent.connect 3, RegEvent.connect 4]
          ∧ RegEvent.disconnect 3 ∉ [RegEvent.connect 3, RegEvent.connect 4]
        then 1 else 0 :=
  (C9_registry_at_most_once 3
      [RegEvent.connect 3, RegEvent.connect 4, RegEvent.disconnect 3]
      (by decide) (Or.inr (Or.inr rfl))).1
    [RegEvent.connect 3, RegEvent.connect 4] [RegEvent.disconnect 3] rfl

end WaybarServer
